import Mathlib

/-!
Shallow embedding of `scripts/compare-benchmarks.py`, a benchmark-comparison
command-line tool.  JSON documents are modelled by an inductive `Json` type
whose mappings are association lists with the keys in insertion order (as
produced by Python's `json.load`, whose dictionaries have unique keys).
Python `None` and JSON `null` are the same runtime object in the source, so
both are modelled by the single constructor `Json.null`.  Numbers are
modelled as exact rationals; the arithmetic the tool performs (subtraction,
one division, comparison with zero) is stated by the specification in exact
terms.  Functions that can raise a Python exception (attribute errors on
non-mapping values, type errors on non-numeric arithmetic) are modelled in
`Except String`, where the error value names the exception.
-/

namespace CompareBenchmarks

/-- JSON values as loaded by `json.load`.  `null` doubles as Python `None`. -/
inductive Json where
  | null : Json
  | bool (b : Bool) : Json
  | num (q : ℚ) : Json
  | str (s : String) : Json
  | arr (elems : List Json) : Json
  | obj (fields : List (String × Json)) : Json

/-- First-match lookup in an association list; models `key in dict` /
`dict[key]` on a Python dict (whose keys are unique). -/
def dictGet (fields : List (String × Json)) (k : String) : Option Json :=
  match fields with
  | [] => none
  | (k', v) :: rest => if k' = k then some v else dictGet rest k

/-- Python's `dict.get(key, default)`: the stored value, or the default when
the key is missing. -/
def pyGetD (fields : List (String × Json)) (k : String) (default : Json) : Json :=
  (dictGet fields k).getD default

/-- `value is None` in the source. -/
def Json.isNull : Json → Bool
  | .null => true
  | _ => false

/-- A benchmark document: the top-level JSON mapping. -/
abbrev BenchDoc := List (String × Json)

/-- The `metrics`-branch of `get_metric_ratio` (source lines 31-38):
`metric_data = data['metrics'].get(metric, {})`; a mapping value yields its
`ratio` key (`None` when missing), any other value is returned directly, and
a document without `metrics` yields `None`.  Calling `.get` on a non-mapping
`metrics` value raises `AttributeError` in the source. -/
def metricsBranch (data : BenchDoc) (metric : String) : Except String Json :=
  match dictGet data "metrics" with
  | some (.obj ms) =>
    match pyGetD ms metric (.obj []) with
    | .obj metricData => .ok (pyGetD metricData "ratio" .null)
    | v => .ok v
  | some _ => .error "AttributeError"
  | none => .ok .null

/-- `get_metric_ratio(data, metric)` (source lines 22-38).  The
discipline-style `summary` shape is consulted first, but only for the two
metric names `EffectDiscipline` and `Safety`; every other name falls through
to the standard `metrics` shape.  `.get` on a non-mapping `summary` value
raises `AttributeError` in the source. -/
def get_metric_ratio (data : BenchDoc) (metric : String) : Except String Json :=
  match dictGet data "summary" with
  | some summaryVal =>
    if metric = "EffectDiscipline" then
      match summaryVal with
      | .obj s => .ok (pyGetD s "disciplineAdvantageRatio" .null)
      | _ => .error "AttributeError"
    else if metric = "Safety" then
      match summaryVal with
      | .obj s => .ok (pyGetD s "safetyAdvantageRatio" .null)
      | _ => .error "AttributeError"
    else metricsBranch data metric
  | none => metricsBranch data metric

/-- One row of the comparison result (the per-metric dict built at source
lines 54-60 and 72-78). -/
structure MetricComparison where
  baseline : ℚ
  current : ℚ
  change : ℚ
  change_pct : ℚ
  improved : Bool
  deriving DecidableEq

/-- The numeric value a `Json` value carries under Python arithmetic:
numbers are numbers and booleans are 0/1 (Python `bool` is an `int`
subtype); everything else fails arithmetic with `TypeError`. -/
def toNum : Json → Option ℚ
  | .num q => some q
  | .bool b => some (if b then 1 else 0)
  | _ => none

/-- The dict literal of source lines 54-60 / 72-78:
`change = current - baseline`,
`change_pct = (change / baseline) * 100 if baseline != 0 else 0`,
`improved = change > 0`. -/
def mkComparison (baselineRatio currentRatio : ℚ) : MetricComparison :=
  let change := currentRatio - baselineRatio
  { baseline := baselineRatio
    current := currentRatio
    change := change
    change_pct := if baselineRatio ≠ 0 then change / baselineRatio * 100 else 0
    improved := decide (change > 0) }

/-- The guarded comparison step shared by both modes of `compare_results`:
skip when either extracted value `is None`; otherwise Python subtraction,
which raises `TypeError` on non-numeric values. -/
def comparePair (baselineVal currentVal : Json) : Except String (Option MetricComparison) :=
  if baselineVal.isNull || currentVal.isNull then .ok none
  else
    match toNum baselineVal, toNum currentVal with
    | some b, some c => .ok (some (mkComparison b c))
    | _, _ => .error "TypeError"

/-- The `for metric_name in baseline['metrics']` loop of source lines 64-78,
with `comparisons` as the accumulator (Python dict insertion order is
modelled by appending). -/
def compareAllLoop (baseline current : BenchDoc) :
    List String → List (String × MetricComparison) →
    Except String (List (String × MetricComparison))
  | [], acc => .ok acc
  | name :: rest, acc =>
    match get_metric_ratio baseline name with
    | .error e => .error e
    | .ok bv =>
      match get_metric_ratio current name with
      | .error e => .error e
      | .ok cv =>
        match comparePair bv cv with
        | .error e => .error e
        | .ok none => compareAllLoop baseline current rest acc
        | .ok (some comp) => compareAllLoop baseline current rest (acc ++ [(name, comp)])

/-- All-metrics mode (source lines 61-78): both documents must have a
`metrics` key, and the loop runs over the baseline's metric names in
insertion order.  Iterating a non-mapping `metrics` value and then calling
`.get` on it raises in the source. -/
def compareAll (baseline current : BenchDoc) :
    Except String (List (String × MetricComparison)) :=
  match dictGet baseline "metrics", dictGet current "metrics" with
  | some bm, some _ =>
    match bm with
    | .obj bms => compareAllLoop baseline current (bms.map Prod.fst) []
    | _ => .error "TypeError"
  | _, _ => .ok []

/-- Single-metric mode (source lines 45-60): extract the one metric from
both documents and emit at most one row. -/
def compareSingle (baseline current : BenchDoc) (metric : String) :
    Except String (List (String × MetricComparison)) :=
  match get_metric_ratio baseline metric with
  | .error e => .error e
  | .ok bv =>
    match get_metric_ratio current metric with
    | .error e => .error e
    | .ok cv =>
      match comparePair bv cv with
      | .error e => .error e
      | .ok none => .ok []
      | .ok (some comp) => .ok [(metric, comp)]

/-- `compare_results(baseline, current, metric)` (source lines 41-80).  The
source dispatches on `if metric:`, so both `None` and the empty string (a
falsy value) select all-metrics mode. -/
def compare_results (baseline current : BenchDoc) (metric : Option String) :
    Except String (List (String × MetricComparison)) :=
  match metric with
  | some m => if m = "" then compareAll baseline current else compareSingle baseline current m
  | none => compareAll baseline current

/-- Round a rational to the nearest integer, ties to even (the rounding
Python's fixed-point float formatting performs on the printed digits). -/
def roundHalfEven (q : ℚ) : ℤ :=
  let f := ⌊q⌋
  if q - f < 1 / 2 then f
  else if q - f > 1 / 2 then f + 1
  else if f % 2 = 0 then f else f + 1

/-- Fixed-point decimal rendering of a rational with `d` digits after the
point, modelling Python's `format(x, '.3f')`-style formatting over exact
rationals. -/
def fmtFixed (q : ℚ) (d : Nat) : String :=
  let scaled := roundHalfEven (q * ((10 : ℚ) ^ d))
  let n := scaled.natAbs
  let intPart := n / 10 ^ d
  let fracPart := n % 10 ^ d
  let fracDigits := toString fracPart
  let fracPadded := String.mk (List.replicate (d - fracDigits.length) '0') ++ fracDigits
  (if scaled < 0 then "-" else "") ++ toString intPart ++
    (if d = 0 then "" else "." ++ fracPadded)

/-- The f-string of source line 109:
`f"{metric}: {baseline:.3f} -> {current:.3f} ({change_pct:.1f}%)"`. -/
def regressionDesc (metric : String) (d : MetricComparison) : String :=
  metric ++ ": " ++ fmtFixed d.baseline 3 ++ " -> " ++ fmtFixed d.current 3 ++
    " (" ++ fmtFixed d.change_pct 1 ++ "%)"

/-- The loop of `check_regression` (source lines 104-111), with the
`regressions` list as accumulator. -/
def check_regression_loop (threshold : ℚ) :
    List (String × MetricComparison) → List String → List String
  | [], acc => acc
  | (metric, d) :: rest, acc =>
    if d.change < 0 ∧ |d.change_pct| > threshold * 100 then
      check_regression_loop threshold rest (acc ++ [regressionDesc metric d])
    else
      check_regression_loop threshold rest acc

/-- `check_regression(comparisons, threshold)` (source lines 102-111). -/
def check_regression (comparisons : List (String × MetricComparison)) (threshold : ℚ) :
    List String :=
  check_regression_loop threshold comparisons []

/-! ## The command-line driver

`main` (source lines 114-171) is modelled as a function of the results of
its effects: the two `load_json` calls are inputs (`Except LoadError`), and
whether the optional output-file write succeeds is an input flag.  Console
output and the file write are recorded as an ordered event trace; the text
of the comparison table and of error messages is abstracted into structured
events, since no formatting of theirs is at issue.  An exception that no
`except` clause of `main` catches makes the interpreter terminate with a
traceback; that outcome is `MainResult.uncaught`, distinct from a handled
`sys.exit`. -/

/-- How a `load_json` call fails (source lines 128 and 131). -/
inductive LoadError where
  | fileNotFound : LoadError
  | invalidFormat : LoadError
  deriving DecidableEq

/-- One observable effect of `main`, in program order. -/
inductive Event where
  | printFileNotFound (which path : String) : Event
  | printInvalidJson (which : String) : Event
  | printNoComparableMetrics : Event
  | printComparisonTable (comparisons : List (String × MetricComparison)) : Event
  | fileWrite (path : String) (comparisons : List (String × MetricComparison)) : Event
  | printSavedTo (path : String) : Event
  | printRegressionsHeader (threshold : ℚ) : Event
  | printRegressionLine (line : String) : Event
  | printNoRegressions (threshold : ℚ) : Event
  deriving DecidableEq

/-- How the process ends: a deliberate `sys.exit(code)` after the recorded
events, or an exception that `main` does not catch (interpreter traceback). -/
inductive MainResult where
  | exit (code : Nat) (events : List Event) : MainResult
  | uncaught (events : List Event) : MainResult
  deriving DecidableEq

/-- The `--output` request: the path given, and whether the write succeeds
(an input to the model, since disk state is outside the program). -/
structure WriteSpec where
  path : String
  succeeds : Bool
  deriving DecidableEq

/-- Source lines 160-171: the regression check after the table (and the
optional output write) has been emitted. -/
def mainAfterOutput (events : List Event) (comparisons : List (String × MetricComparison))
    (failOnRegression : Option ℚ) : MainResult :=
  match failOnRegression with
  | some t =>
    let regressions := check_regression comparisons t
    if regressions.isEmpty then
      .exit 0 (events ++ [.printNoRegressions t])
    else
      .exit 1 (events ++ [.printRegressionsHeader t] ++
        regressions.map Event.printRegressionLine)
  | none => .exit 0 events

/-- `main` (source lines 114-171).  The two loads are tried in order, each
with handlers for `FileNotFoundError` and `json.JSONDecodeError`; an empty
comparison dict exits 1; the table is printed; the source guards the write
with `if args.output:`, so an empty path string is falsy and skips it, and
the write itself is NOT wrapped in a `try` (source lines 155-158), so a
failing write escapes as an uncaught exception; finally the optional
regression check decides the exit code.  An exception raised inside
`compare_results` is likewise not caught. -/
def main (baselinePath currentPath : String)
    (baselineLoad currentLoad : Except LoadError BenchDoc)
    (metric : Option String) (failOnRegression : Option ℚ)
    (output : Option WriteSpec) : MainResult :=
  match baselineLoad with
  | .error .fileNotFound => .exit 1 [.printFileNotFound "Baseline" baselinePath]
  | .error .invalidFormat => .exit 1 [.printInvalidJson "baseline"]
  | .ok baseline =>
    match currentLoad with
    | .error .fileNotFound => .exit 1 [.printFileNotFound "Current" currentPath]
    | .error .invalidFormat => .exit 1 [.printInvalidJson "current"]
    | .ok current =>
      match compare_results baseline current metric with
      | .error _ => .uncaught []
      | .ok comparisons =>
        if comparisons.isEmpty then .exit 1 [.printNoComparableMetrics]
        else
          let events := [Event.printComparisonTable comparisons]
          match output with
          | some w =>
            if w.path = "" then mainAfterOutput events comparisons failOnRegression
            else if w.succeeds then
              mainAfterOutput (events ++ [.fileWrite w.path comparisons, .printSavedTo w.path])
                comparisons failOnRegression
            else .uncaught events
          | none => mainAfterOutput events comparisons failOnRegression

/-! ## Auxiliary definitions used to state the properties -/

/-- The contribution of one baseline metric name to all-metrics mode: the
row `compare_results` appends for that name, or `none` when the row is
skipped (used to characterise the loop of source lines 64-78). -/
def allModePair (baseline current : BenchDoc) (name : String) :
    Option (String × MetricComparison) :=
  match get_metric_ratio baseline name, get_metric_ratio current name with
  | .ok bv, .ok cv =>
    match comparePair bv cv with
    | .ok (some comp) => some (name, comp)
    | _ => none
  | _, _ => none

/-- Whether the process ended through `sys.exit` (a handled termination)
rather than an uncaught exception. -/
def MainResult.isExit : MainResult → Bool
  | .exit _ _ => true
  | .uncaught _ => false

/-- A document is shape-valid when its optional `summary` and `metrics`
values are JSON mappings, as the two recognized document shapes require. -/
def validShapes (data : BenchDoc) : Prop :=
  (∀ v, dictGet data "summary" = some v → ∃ s, v = Json.obj s) ∧
  (∀ v, dictGet data "metrics" = some v → ∃ m, v = Json.obj m)

/-- A standard-style demonstration baseline document. -/
def demoBaseline : BenchDoc :=
  [("metrics", Json.obj [("Throughput", Json.obj [("ratio", Json.num 2)])])]

/-- A standard-style demonstration current document (10% below baseline). -/
def demoCurrent : BenchDoc :=
  [("metrics", Json.obj [("Throughput", Json.obj [("ratio", Json.num (9 / 5))])])]

/-- A demonstration document exposing both recognized shapes at once. -/
def demoBoth : BenchDoc :=
  [("summary", Json.obj [("disciplineAdvantageRatio", Json.num (3 / 2))]),
   ("metrics", Json.obj [("EffectDiscipline", Json.obj [("ratio", Json.num 1)])])]

/-- A demonstration document with only the discipline-style shape. -/
def demoDisciplineOnly : BenchDoc :=
  [("summary", Json.obj [("disciplineAdvantageRatio", Json.num (8 / 5))])]

/-- A baseline whose metric ratio is exactly 0, in the bare-number form. -/
def demoZeroBaseline : BenchDoc := [("metrics", Json.obj [("Throughput", Json.num 0)])]

/-- A current run whose ratio dropped far below the zero baseline. -/
def demoDropped : BenchDoc := [("metrics", Json.obj [("Throughput", Json.num (-2))])]

/-! ## Helper lemmas -/

theorem check_regression_loop_eq (t : ℚ) (cs : List (String × MetricComparison))
    (acc : List String) :
    check_regression_loop t cs acc =
      acc ++ (cs.filter fun p => decide (p.2.change < 0 ∧ |p.2.change_pct| > t * 100)).map
        (fun p => regressionDesc p.1 p.2) := by
  induction cs generalizing acc with
  | nil => simp [check_regression_loop]
  | cons hd tl ih =>
    obtain ⟨metric, d⟩ := hd
    by_cases h : d.change < 0 ∧ |d.change_pct| > t * 100
    · simp [check_regression_loop, h, ih, List.filter_cons]
    · simp [check_regression_loop, h, ih, List.filter_cons]

theorem check_regression_filter_map (cs : List (String × MetricComparison)) (t : ℚ) :
    check_regression cs t =
      (cs.filter fun p => decide (p.2.change < 0 ∧ |p.2.change_pct| > t * 100)).map
        (fun p => regressionDesc p.1 p.2) := by
  simpa using check_regression_loop_eq t cs []

theorem mkComparison_baseline (b c : ℚ) : (mkComparison b c).baseline = b := rfl

theorem mkComparison_current (b c : ℚ) : (mkComparison b c).current = c := rfl

theorem mkComparison_change (b c : ℚ) : (mkComparison b c).change = c - b := rfl

theorem mkComparison_change_pct (b c : ℚ) :
    (mkComparison b c).change_pct = if b ≠ 0 then (c - b) / b * 100 else 0 := rfl

theorem mkComparison_self (q : ℚ) :
    mkComparison q q =
      { baseline := q, current := q, change := 0, change_pct := 0, improved := false } := by
  simp [mkComparison]

theorem toNum_not_null {v : Json} {q : ℚ} (h : toNum v = some q) : v.isNull = false := by
  cases v <;> simp_all [toNum, Json.isNull]

theorem comparePair_both_num {bv cv : Json} {bq cq : ℚ}
    (hb : toNum bv = some bq) (hc : toNum cv = some cq) :
    comparePair bv cv = .ok (some (mkComparison bq cq)) := by
  simp [comparePair, toNum_not_null hb, toNum_not_null hc, hb, hc]

theorem comparePair_null {bv cv : Json} (h : (bv.isNull || cv.isNull) = true) :
    comparePair bv cv = .ok none := by
  simp [comparePair, h]

theorem comparePair_ok_some {bv cv : Json} {comp : MetricComparison}
    (h : comparePair bv cv = .ok (some comp)) :
    ∃ bq cq, toNum bv = some bq ∧ toNum cv = some cq ∧ comp = mkComparison bq cq := by
  unfold comparePair at h
  split at h
  · simp at h
  · split at h
    · rename_i bq cq hbq hcq
      exact ⟨bq, cq, hbq, hcq, by simpa using h.symm⟩
    · simp at h

theorem compareAllLoop_ok_eq (baseline current : BenchDoc) (names : List String)
    (acc cs : List (String × MetricComparison))
    (h : compareAllLoop baseline current names acc = .ok cs) :
    cs = acc ++ names.filterMap (allModePair baseline current) := by
  induction names generalizing acc with
  | nil =>
    simp only [compareAllLoop] at h
    simp [← Except.ok.inj h]
  | cons name rest ih =>
    simp only [compareAllLoop] at h
    cases hb : get_metric_ratio baseline name with
    | error e => simp [hb] at h
    | ok bv =>
      simp only [hb] at h
      cases hc : get_metric_ratio current name with
      | error e => simp [hc] at h
      | ok cv =>
        simp only [hc] at h
        cases hp : comparePair bv cv with
        | error e => simp [hp] at h
        | ok o =>
          simp only [hp] at h
          cases o with
          | none =>
            have hrec := ih _ h
            simp [hrec, List.filterMap_cons, allModePair, hb, hc, hp]
          | some comp =>
            have hrec := ih _ h
            simp [hrec, List.filterMap_cons, allModePair, hb, hc, hp]

theorem allModePair_some {baseline current : BenchDoc} {name : String}
    {p : String × MetricComparison} (h : allModePair baseline current name = some p) :
    ∃ bv cv bq cq,
      get_metric_ratio baseline name = .ok bv ∧ get_metric_ratio current name = .ok cv ∧
      toNum bv = some bq ∧ toNum cv = some cq ∧ bv.isNull = false ∧ cv.isNull = false ∧
      p = (name, mkComparison bq cq) := by
  unfold allModePair at h
  split at h
  · rename_i bv cv hb hc
    split at h
    · rename_i comp hcomp
      obtain ⟨bq, cq, hbq, hcq, hcmp⟩ := comparePair_ok_some hcomp
      exact ⟨bv, cv, bq, cq, hb, hc, hbq, hcq, toNum_not_null hbq, toNum_not_null hcq,
        by simp [← Option.some.inj h, hcmp]⟩
    · simp at h
  · simp at h

theorem compareAll_ok_eq {baseline current : BenchDoc} {bms : List (String × Json)}
    {cs : List (String × MetricComparison)}
    (hbm : dictGet baseline "metrics" = some (.obj bms))
    (hcm : (dictGet current "metrics").isSome = true)
    (h : compareAll baseline current = .ok cs) :
    cs = (bms.map Prod.fst).filterMap (allModePair baseline current) := by
  obtain ⟨cm, hcm'⟩ := Option.isSome_iff_exists.mp hcm
  unfold compareAll at h
  rw [hbm, hcm'] at h
  simpa using compareAllLoop_ok_eq baseline current (bms.map Prod.fst) [] cs h

theorem compareAll_absent {baseline current : BenchDoc}
    (h : dictGet baseline "metrics" = none ∨ dictGet current "metrics" = none) :
    compareAll baseline current = .ok [] := by
  unfold compareAll
  rcases h with h | h
  · rw [h]
  · cases hb : dictGet baseline "metrics" <;> rw [h]

theorem compareAll_mem_mk {baseline current : BenchDoc} {cs : List (String × MetricComparison)}
    (h : compareAll baseline current = .ok cs) :
    ∀ p ∈ cs, ∃ bq cq, p.2 = mkComparison bq cq := by
  intro p hp
  unfold compareAll at h
  cases hbm : dictGet baseline "metrics" with
  | none => rw [hbm] at h; simp at h; subst h; simp at hp
  | some bm =>
    rw [hbm] at h
    cases hcm : dictGet current "metrics" with
    | none => rw [hcm] at h; simp at h; subst h; simp at hp
    | some cm =>
      rw [hcm] at h
      cases bm with
      | obj bms =>
        have := compareAllLoop_ok_eq baseline current (bms.map Prod.fst) [] cs h
        rw [this] at hp
        simp only [List.nil_append, List.mem_filterMap] at hp
        obtain ⟨name, _, hsome⟩ := hp
        obtain ⟨bv, cv, bq, cq, _, _, _, _, _, _, hpeq⟩ := allModePair_some hsome
        exact ⟨bq, cq, by rw [hpeq]⟩
      | null => simp at h
      | bool b => simp at h
      | num q => simp at h
      | str s => simp at h
      | arr elems => simp at h

theorem compare_results_some {baseline current : BenchDoc} {m : String} (hm : m ≠ "") :
    compare_results baseline current (some m) = compareSingle baseline current m := by
  simp [compare_results, hm]

theorem compare_results_none (baseline current : BenchDoc) :
    compare_results baseline current none = compareAll baseline current := rfl

theorem compareSingle_both_num {baseline current : BenchDoc} {m : String} {bv cv : Json}
    {bq cq : ℚ} (hb : get_metric_ratio baseline m = .ok bv)
    (hc : get_metric_ratio current m = .ok cv)
    (hbq : toNum bv = some bq) (hcq : toNum cv = some cq) :
    compareSingle baseline current m = .ok [(m, mkComparison bq cq)] := by
  unfold compareSingle
  simp only [hb, hc, comparePair_both_num hbq hcq]

theorem compareSingle_absent {baseline current : BenchDoc} {m : String} {bv cv : Json}
    (hb : get_metric_ratio baseline m = .ok bv) (hc : get_metric_ratio current m = .ok cv)
    (hnull : (bv.isNull || cv.isNull) = true) :
    compareSingle baseline current m = .ok [] := by
  unfold compareSingle
  simp only [hb, hc, comparePair_null hnull]

theorem compareSingle_mem_mk {baseline current : BenchDoc} {m : String}
    {cs : List (String × MetricComparison)} (h : compareSingle baseline current m = .ok cs) :
    ∀ p ∈ cs, ∃ bq cq, p.2 = mkComparison bq cq := by
  intro p hp
  unfold compareSingle at h
  cases hb : get_metric_ratio baseline m with
  | error e => simp [hb] at h
  | ok bv =>
    simp only [hb] at h
    cases hc : get_metric_ratio current m with
    | error e => simp [hc] at h
    | ok cv =>
      simp only [hc] at h
      cases hcp : comparePair bv cv with
      | error e => simp [hcp] at h
      | ok o =>
        simp only [hcp] at h
        cases o with
        | none => simp at h; subst h; simp at hp
        | some comp =>
          simp at h
          subst h
          obtain ⟨bq, cq, _, _, hcmp⟩ := comparePair_ok_some hcp
          simp at hp
          exact ⟨bq, cq, by rw [hp, hcmp]⟩

theorem compare_results_mem_mk {baseline current : BenchDoc} {metric : Option String}
    {cs : List (String × MetricComparison)}
    (h : compare_results baseline current metric = .ok cs) :
    ∀ p ∈ cs, ∃ bq cq, p.2 = mkComparison bq cq := by
  cases metric with
  | none => exact compareAll_mem_mk h
  | some m =>
    by_cases hm : m = ""
    · subst hm
      exact compareAll_mem_mk (by simpa [compare_results] using h)
    · exact compareSingle_mem_mk (by rwa [compare_results_some hm] at h)

/-! ## Claim theorems -/

/-- C1: `check_regression` classifies a metric as a regression exactly when
its `change` is strictly negative and the absolute value of its
`change_pct` strictly exceeds `threshold * 100`, and it returns the
descriptions of all such metrics in the comparison set's iteration order,
never stopping at the first one found. -/
theorem check_regression_spec (comparisons : List (String × MetricComparison)) (threshold : ℚ) :
    check_regression comparisons threshold =
      (comparisons.filter fun p =>
        decide (p.2.change < 0 ∧ |p.2.change_pct| > threshold * 100)).map
        (fun p => regressionDesc p.1 p.2) :=
  check_regression_filter_map comparisons threshold

/-- C2: every `MetricComparison` constructed by `compare_results` (in either
mode) satisfies `change = current - baseline`, `change_pct = change /
baseline * 100` when the baseline is nonzero, and `change_pct = 0` when the
baseline is exactly zero. -/
theorem compare_results_change_formulas (baseline current : BenchDoc)
    (metric : Option String) (cs : List (String × MetricComparison))
    (h : compare_results baseline current metric = .ok cs) :
    ∀ p ∈ cs,
      p.2.change = p.2.current - p.2.baseline ∧
      (p.2.baseline ≠ 0 → p.2.change_pct = p.2.change / p.2.baseline * 100) ∧
      (p.2.baseline = 0 → p.2.change_pct = 0) := by
  intro p hp
  obtain ⟨bq, cq, hpeq⟩ := compare_results_mem_mk h p hp
  rw [hpeq]
  refine ⟨rfl, ?_, ?_⟩
  · intro hb
    rw [mkComparison_baseline] at hb
    simp [mkComparison_change_pct, mkComparison_change, mkComparison_baseline, hb]
  · intro hb
    rw [mkComparison_baseline] at hb
    simp [mkComparison_change_pct, hb]

/-- Witness for C2 at the spec's end-to-end scenario (baseline ratio 2,
current ratio 1.8). -/
theorem compare_results_change_formulas_witness :
    (mkComparison 2 (9 / 5)).change =
        (mkComparison 2 (9 / 5)).current - (mkComparison 2 (9 / 5)).baseline ∧
      ((mkComparison 2 (9 / 5)).baseline ≠ 0 →
        (mkComparison 2 (9 / 5)).change_pct =
          (mkComparison 2 (9 / 5)).change / (mkComparison 2 (9 / 5)).baseline * 100) ∧
      ((mkComparison 2 (9 / 5)).baseline = 0 → (mkComparison 2 (9 / 5)).change_pct = 0) :=
  compare_results_change_formulas demoBaseline demoCurrent none
    [("Throughput", mkComparison 2 (9 / 5))] rfl ("Throughput", mkComparison 2 (9 / 5))
    (List.mem_singleton.mpr rfl)

/-- C3: the extractor checks the discipline-style shape first — a document
with both `summary.disciplineAdvantageRatio` and a `metrics.EffectDiscipline`
entry yields the `summary` value for `EffectDiscipline` — and, when `summary`
is present but the requested name is neither `EffectDiscipline` nor `Safety`,
extraction falls through to the `metrics` lookup instead of returning
absent. -/
theorem get_metric_ratio_order_spec :
    (∀ (data : BenchDoc) (s ms : List (String × Json)) (v e : Json),
      dictGet data "summary" = some (.obj s) →
      dictGet s "disciplineAdvantageRatio" = some v →
      dictGet data "metrics" = some (.obj ms) →
      dictGet ms "EffectDiscipline" = some e →
      get_metric_ratio data "EffectDiscipline" = .ok v) ∧
    (∀ (data : BenchDoc) (m : String),
      (dictGet data "summary").isSome = true →
      m ≠ "EffectDiscipline" → m ≠ "Safety" →
      get_metric_ratio data m = metricsBranch data m) := by
  constructor
  · intro data s ms v e hsum hdisc _ _
    simp [get_metric_ratio, hsum, pyGetD, hdisc]
  · intro data m hsome hne hns
    obtain ⟨sv, hs⟩ := Option.isSome_iff_exists.mp hsome
    simp [get_metric_ratio, hs, hne, hns]

/-- Witness for C3 on a document exposing both shapes at once: the
discipline-style value 3/2 wins over the standard-style entry, and a name
outside the two special ones reaches the `metrics` lookup. -/
theorem get_metric_ratio_order_witness :
    get_metric_ratio demoBoth "EffectDiscipline" = .ok (.num (3 / 2)) ∧
    get_metric_ratio demoBoth "Throughput" = metricsBranch demoBoth "Throughput" :=
  ⟨get_metric_ratio_order_spec.1 demoBoth
      [("disciplineAdvantageRatio", Json.num (3 / 2))]
      [("EffectDiscipline", Json.obj [("ratio", Json.num 1)])]
      (Json.num (3 / 2)) (Json.obj [("ratio", Json.num 1)]) rfl rfl rfl rfl,
   get_metric_ratio_order_spec.2 demoBoth "Throughput" rfl (by decide) (by decide)⟩

/-- C5: on every shape-valid document (whose optional `summary` and
`metrics` values are mappings), extraction never raises — every lookup
returns a value, with missing keys yielding `null` (absence), never an
error. -/
theorem get_metric_ratio_total (data : BenchDoc) (hv : validShapes data) (metric : String) :
    ∃ v, get_metric_ratio data metric = .ok v := by
  obtain ⟨hsum, hmet⟩ := hv
  have hMB : ∃ v, metricsBranch data metric = .ok v := by
    cases hm : dictGet data "metrics" with
    | none => exact ⟨.null, by simp [metricsBranch, hm]⟩
    | some mv =>
      obtain ⟨ms, rfl⟩ := hmet mv hm
      cases hpd : pyGetD ms metric (.obj []) with
      | null => exact ⟨.null, by simp [metricsBranch, hm, hpd]⟩
      | bool b => exact ⟨.bool b, by simp [metricsBranch, hm, hpd]⟩
      | num q => exact ⟨.num q, by simp [metricsBranch, hm, hpd]⟩
      | str s => exact ⟨.str s, by simp [metricsBranch, hm, hpd]⟩
      | arr es => exact ⟨.arr es, by simp [metricsBranch, hm, hpd]⟩
      | obj md => exact ⟨pyGetD md "ratio" .null, by simp [metricsBranch, hm, hpd]⟩
  unfold get_metric_ratio
  cases hs : dictGet data "summary" with
  | none => exact hMB
  | some sv =>
    obtain ⟨s, rfl⟩ := hsum sv hs
    by_cases h1 : metric = "EffectDiscipline"
    · simp [h1]
    · by_cases h2 : metric = "Safety"
      · simp [h1, h2]
      · simpa [h1, h2] using hMB

/-- Witness for C5 on the two-shape demonstration document and a metric
name (`Safety`) whose `summary` key is missing, so extraction yields
absence rather than an error. -/
theorem get_metric_ratio_total_witness :
    ∃ v, get_metric_ratio demoBoth "Safety" = .ok v :=
  get_metric_ratio_total demoBoth
    ⟨fun _ h => ⟨[("disciplineAdvantageRatio", Json.num (3 / 2))], (Option.some.inj h).symm⟩,
     fun _ h => ⟨[("EffectDiscipline", Json.obj [("ratio", Json.num 1)])],
       (Option.some.inj h).symm⟩⟩
    "Safety"

/-- C4: in all-metrics mode, a missing `metrics` mapping in either document
yields an empty comparison set; otherwise the result is exactly the
baseline's metric names in their stored order, each kept only when
extraction yields a present numeric value from both documents (the content
of `allModePair`, spelled out by the third conjunct). -/
theorem compare_results_all_mode_spec :
    (∀ (baseline current : BenchDoc),
      (dictGet baseline "metrics" = none ∨ dictGet current "metrics" = none) →
      compare_results baseline current none = .ok []) ∧
    (∀ (baseline current : BenchDoc) (bms : List (String × Json))
        (cs : List (String × MetricComparison)),
      dictGet baseline "metrics" = some (.obj bms) →
      (dictGet current "metrics").isSome = true →
      compare_results baseline current none = .ok cs →
      cs = (bms.map Prod.fst).filterMap (allModePair baseline current)) ∧
    (∀ (baseline current : BenchDoc) (name : String) (p : String × MetricComparison),
      allModePair baseline current name = some p →
      ∃ bv cv bq cq,
        get_metric_ratio baseline name = .ok bv ∧ get_metric_ratio current name = .ok cv ∧
        toNum bv = some bq ∧ toNum cv = some cq ∧ bv.isNull = false ∧ cv.isNull = false ∧
        p = (name, mkComparison bq cq)) := by
  refine ⟨?_, ?_, ?_⟩
  · intro baseline current h
    rw [compare_results_none]
    exact compareAll_absent h
  · intro baseline current bms cs hbm hcm h
    rw [compare_results_none] at h
    exact compareAll_ok_eq hbm hcm h
  · intro baseline current name p h
    exact allModePair_some h

/-- Witness for C4: a discipline-style-only current document yields an
empty set in all-metrics mode, and the standard demonstration pair yields
exactly the baseline-ordered filtered rows. -/
theorem compare_results_all_mode_witness :
    compare_results demoBaseline demoDisciplineOnly none = .ok [] ∧
    [("Throughput", mkComparison 2 (9 / 5))] =
      ([("Throughput", Json.obj [("ratio", Json.num 2)])].map Prod.fst).filterMap
        (allModePair demoBaseline demoCurrent) :=
  ⟨compare_results_all_mode_spec.1 demoBaseline demoDisciplineOnly (Or.inr rfl),
   compare_results_all_mode_spec.2.1 demoBaseline demoCurrent
     [("Throughput", Json.obj [("ratio", Json.num 2)])]
     [("Throughput", mkComparison 2 (9 / 5))] rfl rfl rfl⟩

/-- C6: in single-metric mode, when extraction yields a present numeric
value from both documents the comparator emits exactly one entry keyed by
that name, and when extraction from either document yields absence the
result set is completely empty. -/
theorem compare_results_single_mode_spec :
    (∀ (baseline current : BenchDoc) (m : String) (bv cv : Json) (bq cq : ℚ),
      m ≠ "" →
      get_metric_ratio baseline m = .ok bv →
      get_metric_ratio current m = .ok cv →
      toNum bv = some bq → toNum cv = some cq →
      compare_results baseline current (some m) = .ok [(m, mkComparison bq cq)]) ∧
    (∀ (baseline current : BenchDoc) (m : String) (bv cv : Json),
      m ≠ "" →
      get_metric_ratio baseline m = .ok bv →
      get_metric_ratio current m = .ok cv →
      (bv.isNull || cv.isNull) = true →
      compare_results baseline current (some m) = .ok []) := by
  constructor
  · intro baseline current m bv cv bq cq hm hb hc hbq hcq
    rw [compare_results_some hm]
    exact compareSingle_both_num hb hc hbq hcq
  · intro baseline current m bv cv hm hb hc hnull
    rw [compare_results_some hm]
    exact compareSingle_absent hb hc hnull

/-- Witness for C6: the demonstration pair compared on `Throughput` yields
the one expected row, and a name absent from both documents yields the
empty set. -/
theorem compare_results_single_mode_witness :
    compare_results demoBaseline demoCurrent (some "Throughput") =
        .ok [("Throughput", mkComparison 2 (9 / 5))] ∧
    compare_results demoBaseline demoCurrent (some "Latency") = .ok [] :=
  ⟨compare_results_single_mode_spec.1 demoBaseline demoCurrent "Throughput"
     (.num 2) (.num (9 / 5)) 2 (9 / 5) (by decide) rfl rfl rfl rfl,
   compare_results_single_mode_spec.2 demoBaseline demoCurrent "Latency"
     .null .null (by decide) rfl rfl rfl⟩

/-- C8: comparing a document against itself for a metric whose extraction
yields a numeric value produces a `MetricComparison` with `change = 0`,
`change_pct = 0` and `improved = false`; and every row of an all-metrics
self-comparison has those three zero/false fields. -/
theorem self_comparison_spec :
    (∀ (d : BenchDoc) (m : String) (v : Json) (q : ℚ),
      m ≠ "" → get_metric_ratio d m = .ok v → toNum v = some q →
      compare_results d d (some m) =
        .ok [(m, { baseline := q, current := q, change := 0, change_pct := 0,
                   improved := false })]) ∧
    (∀ (d : BenchDoc) (cs : List (String × MetricComparison)),
      compare_results d d none = .ok cs →
      ∀ p ∈ cs, p.2.change = 0 ∧ p.2.change_pct = 0 ∧ p.2.improved = false) := by
  constructor
  · intro d m v q hm hv hq
    rw [compare_results_some hm, compareSingle_both_num hv hv hq hq, mkComparison_self]
  · intro d cs h p hp
    rw [compare_results_none] at h
    unfold compareAll at h
    cases hbm : dictGet d "metrics" with
    | none => rw [hbm] at h; simp at h; subst h; simp at hp
    | some bm =>
      rw [hbm] at h
      cases bm with
      | obj bms =>
        have hcs := compareAllLoop_ok_eq d d (bms.map Prod.fst) [] cs h
        rw [hcs] at hp
        simp only [List.nil_append, List.mem_filterMap] at hp
        obtain ⟨name, _, hsome⟩ := hp
        obtain ⟨bv, cv, bq, cq, hb, hc, hbq, hcq, _, _, hpeq⟩ := allModePair_some hsome
        have hvv : bv = cv := by rw [hb] at hc; exact Except.ok.inj hc
        subst hvv
        have hqq : bq = cq := by rw [hbq] at hcq; exact Option.some.inj hcq
        subst hqq
        rw [hpeq]
        simp [mkComparison_self]
      | null => simp at h
      | bool b => simp at h
      | num q => simp at h
      | str s => simp at h
      | arr es => simp at h

/-- Witness for C8: the two-shape demonstration document compared against
itself on `EffectDiscipline`. -/
theorem self_comparison_witness :
    compare_results demoBoth demoBoth (some "EffectDiscipline") =
      .ok [("EffectDiscipline",
        { baseline := 3 / 2, current := 3 / 2, change := 0, change_pct := 0,
          improved := false })] :=
  self_comparison_spec.1 demoBoth "EffectDiscipline" (.num (3 / 2)) (3 / 2)
    (by decide) rfl rfl

/-- C9: a comparator-built row whose baseline is exactly 0 has
`change_pct = 0`, so for a nonnegative threshold it never satisfies the
regression condition and `check_regression` reports the same list with or
without such rows, no matter how far the current ratio dropped. -/
theorem zero_baseline_no_regression_spec (baseline current : BenchDoc)
    (metric : Option String) (cs : List (String × MetricComparison)) (t : ℚ)
    (h : compare_results baseline current metric = .ok cs) (ht : 0 ≤ t) :
    (∀ p ∈ cs, p.2.baseline = 0 → ¬(p.2.change < 0 ∧ |p.2.change_pct| > t * 100)) ∧
    check_regression cs t =
      check_regression (cs.filter fun p => decide (p.2.baseline ≠ 0)) t := by
  have hcond :
      ∀ p ∈ cs, p.2.baseline = 0 → ¬(p.2.change < 0 ∧ |p.2.change_pct| > t * 100) := by
    intro p hp hb0 hreg
    obtain ⟨bq, cq, hpeq⟩ := compare_results_mem_mk h p hp
    have hbq : bq = 0 := by rw [hpeq, mkComparison_baseline] at hb0; exact hb0
    have hpct : p.2.change_pct = 0 := by
      rw [hpeq, mkComparison_change_pct]
      simp [hbq]
    rw [hpct] at hreg
    have h100 : (0 : ℚ) ≤ t * 100 := by positivity
    have := hreg.2
    simp at this
    linarith
  refine ⟨hcond, ?_⟩
  rw [check_regression_filter_map, check_regression_filter_map, List.filter_filter]
  refine congrArg _ (List.filter_congr ?_).symm
  intro p hp
  by_cases hc : p.2.change < 0 ∧ |p.2.change_pct| > t * 100
  · have hb : p.2.baseline ≠ 0 := fun hb0 => hcond p hp hb0 hc
    simp [hc, hb]
  · simp [hc]

/-- Witness for C9: a zero-baseline metric whose current ratio dropped to
-2 is still not reported at threshold 0.05. -/
theorem zero_baseline_no_regression_witness :
    (∀ p ∈ [("Throughput", mkComparison 0 (-2))],
      p.2.baseline = 0 → ¬(p.2.change < 0 ∧ |p.2.change_pct| > (1 / 20 : ℚ) * 100)) ∧
    check_regression [("Throughput", mkComparison 0 (-2))] (1 / 20) =
      check_regression ([("Throughput", mkComparison 0 (-2))].filter
        fun p => decide (p.2.baseline ≠ 0)) (1 / 20) :=
  zero_baseline_no_regression_spec demoZeroBaseline demoDropped none
    [("Throughput", mkComparison 0 (-2))] (1 / 20) rfl (by norm_num)

/-- C10: with `--output` given (and the write succeeding) and a non-empty
comparison set, the file write and its confirmation line happen before the
regression check, so a run that exits 1 for a detected regression has
already written the comparison data. -/
theorem output_before_regression_spec (bp cp : String) (baseline current : BenchDoc)
    (metric : Option String) (t : ℚ) (w : WriteSpec)
    (cs : List (String × MetricComparison))
    (h : compare_results baseline current metric = .ok cs) (hne : cs ≠ [])
    (hpath : w.path ≠ "") (hw : w.succeeds = true)
    (hreg : check_regression cs t ≠ []) :
    main bp cp (.ok baseline) (.ok current) metric (some t) (some w) =
      .exit 1 ([.printComparisonTable cs, .fileWrite w.path cs, .printSavedTo w.path,
        .printRegressionsHeader t] ++ (check_regression cs t).map Event.printRegressionLine) := by
  have hcse : cs.isEmpty = false := by simpa using hne
  have hrge : (check_regression cs t).isEmpty = false := by simpa using hreg
  simp [main, mainAfterOutput, h, hcse, hpath, hw, hrge]

/-- Witness for C10: the end-to-end regression scenario with a successful
output write still exits 1 after recording the write. -/
theorem output_before_regression_witness :
    main "baseline.json" "current.json" (.ok demoBaseline) (.ok demoCurrent) none
        (some (1 / 20)) (some { path := "out.json", succeeds := true }) =
      .exit 1 ([.printComparisonTable [("Throughput", mkComparison 2 (9 / 5))],
        .fileWrite "out.json" [("Throughput", mkComparison 2 (9 / 5))],
        .printSavedTo "out.json", .printRegressionsHeader (1 / 20)] ++
        (check_regression [("Throughput", mkComparison 2 (9 / 5))] (1 / 20)).map
          Event.printRegressionLine) :=
  output_before_regression_spec "baseline.json" "current.json" demoBaseline demoCurrent none
    (1 / 20) { path := "out.json", succeeds := true } [("Throughput", mkComparison 2 (9 / 5))]
    rfl (by decide) (by decide) rfl
    (by norm_num [check_regression, check_regression_loop, mkComparison])

/-- C7 (amended): `FileNotFound`, `InvalidFormat`, `NoComparableMetrics` and
`RegressionDetected` are each handled at the top level with a printed
message and exit code 1, but an I/O failure writing the `--output` file is
not caught anywhere: it propagates as an uncaught exception instead of a
handled message. -/
theorem main_error_handling_spec :
    (∀ (bp cp : String) (cl : Except LoadError BenchDoc) (m : Option String)
        (f : Option ℚ) (o : Option WriteSpec),
      main bp cp (.error .fileNotFound) cl m f o =
        .exit 1 [.printFileNotFound "Baseline" bp]) ∧
    (∀ (bp cp : String) (cl : Except LoadError BenchDoc) (m : Option String)
        (f : Option ℚ) (o : Option WriteSpec),
      main bp cp (.error .invalidFormat) cl m f o = .exit 1 [.printInvalidJson "baseline"]) ∧
    (∀ (bp cp : String) (b : BenchDoc) (m : Option String) (f : Option ℚ)
        (o : Option WriteSpec),
      main bp cp (.ok b) (.error .fileNotFound) m f o =
        .exit 1 [.printFileNotFound "Current" cp]) ∧
    (∀ (bp cp : String) (b : BenchDoc) (m : Option String) (f : Option ℚ)
        (o : Option WriteSpec),
      main bp cp (.ok b) (.error .invalidFormat) m f o =
        .exit 1 [.printInvalidJson "current"]) ∧
    (∀ (bp cp : String) (b c : BenchDoc) (m : Option String) (f : Option ℚ)
        (o : Option WriteSpec),
      compare_results b c m = .ok [] →
      main bp cp (.ok b) (.ok c) m f o = .exit 1 [.printNoComparableMetrics]) ∧
    (∀ (bp cp : String) (b c : BenchDoc) (m : Option String) (t : ℚ)
        (cs : List (String × MetricComparison)),
      compare_results b c m = .ok cs → cs ≠ [] → check_regression cs t ≠ [] →
      main bp cp (.ok b) (.ok c) m (some t) none =
        .exit 1 ([.printComparisonTable cs, .printRegressionsHeader t] ++
          (check_regression cs t).map Event.printRegressionLine)) ∧
    (∀ (bp cp : String) (b c : BenchDoc) (m : Option String) (f : Option ℚ)
        (w : WriteSpec) (cs : List (String × MetricComparison)),
      compare_results b c m = .ok cs → cs ≠ [] → w.path ≠ "" → w.succeeds = false →
      main bp cp (.ok b) (.ok c) m f (some w) = .uncaught [.printComparisonTable cs]) := by
  refine ⟨?_, ?_, ?_, ?_, ?_, ?_, ?_⟩
  · intro bp cp cl m f o; rfl
  · intro bp cp cl m f o; rfl
  · intro bp cp b m f o; rfl
  · intro bp cp b m f o; rfl
  · intro bp cp b c m f o h
    simp [main, h]
  · intro bp cp b c m t cs h hne hreg
    have hcse : cs.isEmpty = false := by simpa using hne
    have hrge : (check_regression cs t).isEmpty = false := by simpa using hreg
    simp [main, mainAfterOutput, h, hcse, hrge]
  · intro bp cp b c m f w cs h hne hpath hw
    have hcse : cs.isEmpty = false := by simpa using hne
    simp [main, h, hcse, hpath, hw]

/-- Witness for C7 (amended), at the regression scenario: the comparator
succeeds, the set and the regression list are non-empty, and the run is
handled with exit code 1. -/
theorem main_error_handling_witness :
    main "baseline.json" "current.json" (.ok demoBaseline) (.ok demoCurrent) none
        (some (1 / 20)) none =
      .exit 1 ([.printComparisonTable [("Throughput", mkComparison 2 (9 / 5))],
        .printRegressionsHeader (1 / 20)] ++
        (check_regression [("Throughput", mkComparison 2 (9 / 5))] (1 / 20)).map
          Event.printRegressionLine) :=
  main_error_handling_spec.2.2.2.2.2.1 "baseline.json" "current.json" demoBaseline demoCurrent
    none (1 / 20) [("Throughput", mkComparison 2 (9 / 5))] rfl (by decide)
    (by norm_num [check_regression, check_regression_loop, mkComparison])

/-- C7 counterexample: with everything loaded and compared successfully but
the `--output` write failing, `main` does not handle the failure — the run
ends as an uncaught exception, not as a handled exit-1 with a message. -/
theorem main_write_error_counterexample :
    main "baseline.json" "current.json" (.ok demoBaseline) (.ok demoCurrent) none none
        (some { path := "out.json", succeeds := false }) =
      .uncaught [.printComparisonTable [("Throughput", mkComparison 2 (9 / 5))]] ∧
    (main "baseline.json" "current.json" (.ok demoBaseline) (.ok demoCurrent) none none
        (some { path := "out.json", succeeds := false })).isExit = false :=
  ⟨rfl, rfl⟩

end CompareBenchmarks
